import Mathlib

/-!
Shallow embedding of the inventory/order-management route handlers of the
amplify-sql repository: the stock ledger operations (`updateStock`,
`bulkUpdateStock`), the purchase-order receiving workflow
(`receivePurchaseOrder`), purchase-order and sales-order creation
(`createPurchaseOrder`, `createOrder`) and the sales-order status update
(`updateOrder`).  Entity ids (strings in the source) are modelled as `Nat`,
integer quantities (`parseInt`) as `Int`, monetary floats (`parseFloat`)
as `ℚ`, and timestamps (`new Date()`) as an explicit `now : Nat` argument.
The router/HTTP layer is outside the model: each function receives
already-parsed inputs, with absent JSON fields as `none`.
-/

namespace AmplifySql

/-- A stock ledger row for one (productId, warehouseId) pair. -/
structure StockItem where
  quantity : Int
  reservedQty : Int
  availableQty : Int
  lastCountAt : Option Nat
deriving Repr, DecidableEq

/-- The stock ledger: rows keyed by the unique (productId, warehouseId) pair. -/
abbrev Ledger := List ((Nat × Nat) × StockItem)

/-- `stockItem.findUnique` on the composite key. -/
def lookupStock (ledger : Ledger) (productId warehouseId : Nat) : Option StockItem :=
  (ledger.find? (fun e => e.1 == (productId, warehouseId))).map (fun e => e.2)

/-- `stockItem.upsert`: replace the row if the key exists, else insert it. -/
def writeStock (ledger : Ledger) (productId warehouseId : Nat) (item : StockItem) : Ledger :=
  if (lookupStock ledger productId warehouseId).isSome then
    ledger.map (fun e => if e.1 == (productId, warehouseId) then (e.1, item) else e)
  else ((productId, warehouseId), item) :: ledger

/-- Audit log action values. -/
inductive AuditAction
  | CREATE
  | UPDATE
  | DELETE
deriving Repr, DecidableEq

/-- One audit log entry as written by `updateStock`: the before/after
snapshot pairs are (quantity, reservedQty). -/
structure AuditEntry where
  action : AuditAction
  before : Option (Int × Int)
  after : Int × Int
deriving Repr, DecidableEq

/-- The parsed body of a PUT /api/stock/:productId/:warehouseId request. -/
structure StockBody where
  adjustment : Option Int
  quantity : Option Int
  reservedQty : Option Int
  isCount : Bool
deriving Repr, DecidableEq

/-- Outcome of `updateStock`: the written row plus the audit entries on
success, or an HTTP status code and error message. -/
inductive StockOutcome
  | ok (item : StockItem) (audits : List AuditEntry)
  | err (status : Nat) (msg : String)
deriving Repr, DecidableEq

/-- The "determine update operation" block of `updateStock`: the new
(quantity, reservedQty) pair, or `none` when the body carries neither an
adjustment nor a quantity.  Relative `adjustment` mode takes precedence,
clamps at 0 and keeps the existing reserved quantity (the supplied one is
not consulted); absolute `quantity` mode clamps at 0 and takes the supplied
reserved quantity, defaulting to the existing one. -/
def computeNewQty (existing : Option StockItem) (body : StockBody) : Option (Int × Int) :=
  match body.adjustment with
  | some adj =>
      let currentQty := (existing.map StockItem.quantity).getD 0
      some (max 0 (currentQty + adj), (existing.map StockItem.reservedQty).getD 0)
  | none =>
      match body.quantity with
      | some q =>
          some (max 0 q, body.reservedQty.getD ((existing.map StockItem.reservedQty).getD 0))
      | none => none

/-- `updateStock` from the stock routes.  Validates that the product and
warehouse exist, computes the new quantity pair via `computeNewQty`,
rejects a reserved quantity above the new quantity, upserts the row, and
writes one audit entry when a user record exists for the caller.  Returns
the outcome and the resulting ledger (unchanged on error). -/
def updateStock (products warehouses : List Nat) (userExists : Bool) (ledger : Ledger)
    (productId warehouseId : Nat) (body : StockBody) (now : Nat) :
    StockOutcome × Ledger :=
  if ¬ products.contains productId then (.err 404 "Product not found", ledger)
  else if ¬ warehouses.contains warehouseId then (.err 404 "Warehouse not found", ledger)
  else
    let existing := lookupStock ledger productId warehouseId
    match computeNewQty existing body with
    | none => (.err 400 "quantity or adjustment is required", ledger)
    | some (newQuantity, newReservedQty) =>
        if newReservedQty > newQuantity then
          (.err 400 "Reserved quantity cannot exceed total quantity", ledger)
        else
          let written : StockItem :=
            { quantity := newQuantity
              reservedQty := newReservedQty
              availableQty := newQuantity - newReservedQty
              lastCountAt := if body.isCount then some now else existing.bind StockItem.lastCountAt }
          let audits : List AuditEntry :=
            if userExists then
              [{ action := if existing.isSome then .UPDATE else .CREATE
                 before := existing.map (fun e => (e.quantity, e.reservedQty))
                 after := (newQuantity, newReservedQty) }]
            else []
          (.ok written audits, writeStock ledger productId warehouseId written)

/-- One element of the items array of a POST /api/stock/bulk body. -/
structure BulkItem where
  productId : Option Nat
  warehouseId : Option Nat
  quantity : Option Int
  reservedQty : Option Int
deriving Repr, DecidableEq

/-- Per-item entry of the bulk update result list. -/
structure BulkResult where
  productId : Option Nat
  warehouseId : Option Nat
  success : Bool
deriving Repr, DecidableEq

/-- One iteration of the `bulkUpdateStock` loop: items missing an id are
recorded as failures; otherwise the row is upserted with the given
quantities (absent ones default to 0) with no further validation. -/
def bulkStep (now : Nat) (state : Ledger × List BulkResult) (item : BulkItem) :
    Ledger × List BulkResult :=
  match item.productId, item.warehouseId with
  | some pid, some wid =>
      let quantity := item.quantity.getD 0
      let reservedQty := item.reservedQty.getD 0
      let written : StockItem :=
        { quantity := quantity
          reservedQty := reservedQty
          availableQty := quantity - reservedQty
          lastCountAt := some now }
      (writeStock state.1 pid wid written,
       state.2 ++ [{ productId := some pid, warehouseId := some wid, success := true }])
  | _, _ =>
      (state.1,
       state.2 ++ [{ productId := item.productId, warehouseId := item.warehouseId,
                     success := false }])

/-- `bulkUpdateStock` from the stock routes: folds the per-item upsert over
the items list inside one transaction.  The handler writes no audit log
entries, which the empty third component records. -/
def bulkUpdateStock (ledger : Ledger) (items : List BulkItem) (now : Nat) :
    Ledger × List BulkResult × List AuditEntry :=
  let res := items.foldl (bulkStep now) (ledger, [])
  (res.1, res.2, [])

/-- Purchase order status values. -/
inductive POStatus
  | DRAFT
  | PENDING
  | ORDERED
  | PARTIAL
  | RECEIVED
  | CANCELLED
deriving Repr, DecidableEq

/-- A purchase order item row (the fields the receive workflow touches). -/
structure POItem where
  id : Nat
  productId : Nat
  quantity : Int
  receivedQty : Int
deriving Repr, DecidableEq

/-- A purchase order with its item rows. -/
structure PurchaseOrder where
  status : POStatus
  items : List POItem
  receivedAt : Option Nat
deriving Repr, DecidableEq

/-- One element of the optional items array of a receive request body. -/
structure ReceiveLine where
  itemId : Nat
  receivedQty : Int
deriving Repr, DecidableEq

/-- The stock upsert performed for one received line: increment `quantity`
and `availableQty` of the existing row by `qty` (reservedQty untouched),
or create the row with `quantity = availableQty = qty` and the schema
default `reservedQty = 0`. -/
def stockReceive (ledger : Ledger) (productId warehouseId : Nat) (qty : Int) : Ledger :=
  match lookupStock ledger productId warehouseId with
  | some e =>
      writeStock ledger productId warehouseId
        { e with quantity := e.quantity + qty, availableQty := e.availableQty + qty }
  | none =>
      writeStock ledger productId warehouseId
        { quantity := qty, reservedQty := 0, availableQty := qty, lastCountAt := none }

/-- `purchaseOrderItem.update` setting the received quantity of one item row. -/
def setReceivedQty (items : List POItem) (itemId : Nat) (v : Int) : List POItem :=
  items.map (fun i => if i.id == itemId then { i with receivedQty := v } else i)

/-- One iteration of the receive loop.  `snapshot` is the item list read
before the transaction (the source closes over `order.items`); the state is
the current item table and ledger.  The applied quantity is clamped to the
remaining quantity of the line and the line is skipped when it is ≤ 0. -/
def receiveLine (snapshot : List POItem) (warehouseId : Nat)
    (state : List POItem × Ledger) (line : ReceiveLine) : List POItem × Ledger :=
  match snapshot.find? (fun i => i.id == line.itemId) with
  | none => state
  | some item =>
      let qty := min line.receivedQty (item.quantity - item.receivedQty)
      if qty ≤ 0 then state
      else
        (setReceivedQty state.1 item.id (item.receivedQty + qty),
         stockReceive state.2 item.productId warehouseId qty)

/-- `receivePurchaseOrder` from the purchase order routes: requires status
ORDERED or PARTIAL, defaults the received lines to the full remaining
quantity of every item, folds `receiveLine` over the lines, then recomputes
the order status and `receivedAt` from the updated items. -/
def receivePurchaseOrder (order : PurchaseOrder) (ledger : Ledger) (warehouseId : Nat)
    (bodyItems : Option (List ReceiveLine)) (now : Nat) :
    Except (Nat × String) (PurchaseOrder × Ledger) :=
  if ¬ [POStatus.ORDERED, POStatus.PARTIAL].contains order.status then
    .error (400, "Cannot receive items for order with this status")
  else
    let receivedItems := bodyItems.getD
      (order.items.map (fun i => { itemId := i.id, receivedQty := i.quantity - i.receivedQty }))
    let final := receivedItems.foldl (receiveLine order.items warehouseId) (order.items, ledger)
    let updatedItems := final.1
    let allReceived := updatedItems.all (fun i => decide (i.receivedQty ≥ i.quantity))
    let someReceived := updatedItems.any (fun i => decide (i.receivedQty > 0))
    let newStatus :=
      if allReceived then POStatus.RECEIVED
      else if someReceived then POStatus.PARTIAL
      else order.status
    .ok ({ status := newStatus
           items := updatedItems
           receivedAt := if allReceived then some now else none }, final.2)

/-- Sales order status values. -/
inductive OrderStatus
  | PENDING
  | CONFIRMED
  | PROCESSING
  | SHIPPED
  | DELIVERED
  | CANCELLED
  | REFUNDED
deriving Repr, DecidableEq

/-- Display name of a sales order status, used in the transition error message. -/
def orderStatusName : OrderStatus → String
  | .PENDING => "PENDING"
  | .CONFIRMED => "CONFIRMED"
  | .PROCESSING => "PROCESSING"
  | .SHIPPED => "SHIPPED"
  | .DELIVERED => "DELIVERED"
  | .CANCELLED => "CANCELLED"
  | .REFUNDED => "REFUNDED"

/-- The `validTransitions` table of `updateOrder`. -/
def validTransitions : OrderStatus → List OrderStatus
  | .PENDING => [.CONFIRMED, .CANCELLED]
  | .CONFIRMED => [.PROCESSING, .CANCELLED]
  | .PROCESSING => [.SHIPPED, .CANCELLED]
  | .SHIPPED => [.DELIVERED]
  | .DELIVERED => [.REFUNDED]
  | .CANCELLED => []
  | .REFUNDED => []

/-- The sales order fields `updateOrder` touches. -/
structure Order where
  status : OrderStatus
  shippedAt : Option Nat
  deliveredAt : Option Nat
deriving Repr, DecidableEq

/-- The parsed body of a PUT /api/orders/:id request: the requested status,
if any, and whether an items array was supplied. -/
structure UpdateOrderBody where
  status : Option OrderStatus
  hasItems : Bool
deriving Repr, DecidableEq

/-- `updateOrder` from the sales order routes.  A requested status different
from the current one must appear in `validTransitions` of the current
status, else the invalid-transition error is returned; a requested status
equal to the current one skips that check.  SHIPPED and DELIVERED requests
stamp `shippedAt`/`deliveredAt` with `now`.  An items array on a PENDING
order is rejected before anything is written. -/
def updateOrder (existing : Order) (body : UpdateOrderBody) (now : Nat) :
    Except (Nat × String) Order :=
  match body.status with
  | some s =>
      if s ≠ existing.status ∧ ¬ (validTransitions existing.status).contains s then
        .error (400, "Invalid status transition from " ++ orderStatusName existing.status
                      ++ " to " ++ orderStatusName s)
      else if body.hasItems ∧ existing.status = .PENDING then
        .error (400, "Item updates not supported via this endpoint")
      else
        .ok { status := s
              shippedAt := if s = .SHIPPED then some now else existing.shippedAt
              deliveredAt := if s = .DELIVERED then some now else existing.deliveredAt }
  | none =>
      if body.hasItems ∧ existing.status = .PENDING then
        .error (400, "Item updates not supported via this endpoint")
      else .ok existing

/-- The product fields sales order pricing reads. -/
structure Product where
  id : Nat
  unitPrice : ℚ
  isTaxable : Bool
deriving Repr, DecidableEq

/-- The customer fields sales order pricing reads. -/
structure Customer where
  id : Nat
  taxExempt : Bool
deriving Repr, DecidableEq

/-- The 8.25% sales tax rate (`0.0825` in the source). -/
def salesTaxRate : ℚ := 825 / 10000

/-- JavaScript truthiness of an optional integer field: absent and 0 are
falsy (`!item.quantity`). -/
def truthyInt (o : Option Int) : Option Int :=
  match o with
  | some q => if q = 0 then none else some q
  | none => none

/-- JavaScript truthiness of an optional rational field: absent and 0 are
falsy (`!item.unitPrice`). -/
def truthyRat (o : Option ℚ) : Option ℚ :=
  match o with
  | some q => if q = 0 then none else some q
  | none => none

/-- One element of the items array of a POST /api/orders body. -/
structure OrderItemInput where
  productId : Option Nat
  quantity : Option Int
  unitPrice : Option ℚ
  discount : Option ℚ
deriving Repr, DecidableEq

/-- An order item row as created by `createOrder`. -/
structure OrderItemData where
  productId : Nat
  quantity : Int
  unitPrice : ℚ
  discount : ℚ
  taxAmount : ℚ
  totalPrice : ℚ
deriving Repr, DecidableEq

/-- The parsed body of a POST /api/orders request. -/
structure CreateOrderBody where
  customerId : Option Nat
  items : Option (List OrderItemInput)
  discountAmount : Option ℚ
  shippingAmount : Option ℚ
deriving Repr, DecidableEq

/-- A sales order as created by `createOrder`. -/
structure CreatedOrder where
  customerId : Nat
  subtotal : ℚ
  taxAmount : ℚ
  discountAmount : ℚ
  shippingAmount : ℚ
  totalAmount : ℚ
  items : List OrderItemData
deriving Repr, DecidableEq

/-- The item loop of `createOrder`: each item requires a truthy productId
and quantity and an existing product; the unit price defaults to the
product's current price; per line
`lineTotal = quantity × unitPrice − discount`, the tax rate is 8.25% iff
the product is taxable and the customer is not tax exempt,
`taxAmount = lineTotal × taxRate` and `totalPrice = lineTotal + taxAmount`.
Returns the accumulated (subtotal, totalTax, item rows). -/
def processOrderItems (products : List Product) (customer : Customer) :
    List OrderItemInput → Except (Nat × String) (ℚ × ℚ × List OrderItemData)
  | [] => .ok (0, 0, [])
  | item :: rest =>
      match item.productId, truthyInt item.quantity with
      | some pid, some q =>
          match products.find? (fun p => p.id == pid) with
          | none => .error (404, "Product not found")
          | some product =>
              let unitPrice := item.unitPrice.getD product.unitPrice
              let discount := item.discount.getD 0
              let lineTotal := (q : ℚ) * unitPrice - discount
              let taxRate := if product.isTaxable ∧ ¬ customer.taxExempt then salesTaxRate else 0
              let taxAmount := lineTotal * taxRate
              match processOrderItems products customer rest with
              | .error e => .error e
              | .ok (s, t, ds) =>
                  .ok (lineTotal + s, taxAmount + t,
                       { productId := pid
                         quantity := q
                         unitPrice := unitPrice
                         discount := discount
                         taxAmount := taxAmount
                         totalPrice := lineTotal + taxAmount } :: ds)
      | _, _ => .error (400, "Each item requires productId and quantity")

/-- `createOrder` from the sales order routes: requires a customerId
referencing an existing customer, prices the items (an absent items array
is priced as the empty list), and assembles the order-level totals. -/
def createOrder (customers : List Customer) (products : List Product)
    (body : CreateOrderBody) : Except (Nat × String) CreatedOrder :=
  match body.customerId with
  | none => .error (400, "customerId is required")
  | some cid =>
      match customers.find? (fun c => c.id == cid) with
      | none => .error (404, "Customer not found")
      | some customer =>
          match processOrderItems products customer (body.items.getD []) with
          | .error e => .error e
          | .ok (subtotal, totalTax, itemsData) =>
              let discountAmount := body.discountAmount.getD 0
              let shippingAmount := body.shippingAmount.getD 0
              .ok { customerId := cid
                    subtotal := subtotal
                    taxAmount := totalTax
                    discountAmount := discountAmount
                    shippingAmount := shippingAmount
                    totalAmount := subtotal - discountAmount + totalTax + shippingAmount
                    items := itemsData }

/-- One element of the items array of a POST /api/purchase-orders body. -/
structure POItemInput where
  productId : Option Nat
  quantity : Option Int
  unitPrice : Option ℚ
deriving Repr, DecidableEq

/-- A purchase order item row as created by `createPurchaseOrder`. -/
structure POItemData where
  productId : Nat
  quantity : Int
  unitPrice : ℚ
  totalPrice : ℚ
deriving Repr, DecidableEq

/-- The parsed body of a POST /api/purchase-orders request. -/
structure CreatePOBody where
  supplierId : Option Nat
  items : Option (List POItemInput)
  taxAmount : Option ℚ
  shippingAmount : Option ℚ
deriving Repr, DecidableEq

/-- A purchase order as created by `createPurchaseOrder`. -/
structure CreatedPO where
  supplierId : Nat
  subtotal : ℚ
  taxAmount : ℚ
  shippingAmount : ℚ
  totalAmount : ℚ
  items : List POItemData
deriving Repr, DecidableEq

/-- The item loop of `createPurchaseOrder`: each item requires truthy
productId, quantity and unitPrice; `totalPrice = quantity × unitPrice` and
the subtotal accumulates the line totals. -/
def processPOItems : List POItemInput → Except (Nat × String) (ℚ × List POItemData)
  | [] => .ok (0, [])
  | item :: rest =>
      match item.productId, truthyInt item.quantity, truthyRat item.unitPrice with
      | some pid, some q, some up =>
          let totalPrice := (q : ℚ) * up
          match processPOItems rest with
          | .error e => .error e
          | .ok (s, ds) =>
              .ok (totalPrice + s,
                   { productId := pid, quantity := q, unitPrice := up,
                     totalPrice := totalPrice } :: ds)
      | _, _, _ => .error (400, "Each item requires productId, quantity, and unitPrice")

/-- `createPurchaseOrder` from the purchase order routes: requires a
supplierId referencing an existing supplier, prices the items (an absent
items array is priced as the empty list), and assembles the totals with
`totalAmount = subtotal + taxAmount + shippingAmount`. -/
def createPurchaseOrder (suppliers : List Nat) (body : CreatePOBody) :
    Except (Nat × String) CreatedPO :=
  match body.supplierId with
  | none => .error (400, "supplierId is required")
  | some sid =>
      if ¬ suppliers.contains sid then .error (404, "Supplier not found")
      else
        match processPOItems (body.items.getD []) with
        | .error e => .error e
        | .ok (subtotal, itemsData) =>
            let taxAmount := body.taxAmount.getD 0
            let shippingAmount := body.shippingAmount.getD 0
            .ok { supplierId := sid
                  subtotal := subtotal
                  taxAmount := taxAmount
                  shippingAmount := shippingAmount
                  totalAmount := subtotal + taxAmount + shippingAmount
                  items := itemsData }

/-! Helper lemmas shared by the claim theorems. -/

/-- Inversion of a successful `updateStock` call: the existence checks
passed, `computeNewQty` produced a pair passing the reserved-quantity
validation, and the written row, ledger and audit entries have the stated
shapes. -/
theorem updateStock_ok_inv {products warehouses : List Nat} {userExists : Bool}
    {ledger : Ledger} {productId warehouseId : Nat} {body : StockBody} {now : Nat}
    {item : StockItem} {audits : List AuditEntry} {ledger2 : Ledger}
    (h : updateStock products warehouses userExists ledger productId warehouseId body now
          = (.ok item audits, ledger2)) :
    ∃ nq nr, computeNewQty (lookupStock ledger productId warehouseId) body = some (nq, nr) ∧
      ¬ nr > nq ∧
      item = { quantity := nq, reservedQty := nr, availableQty := nq - nr,
               lastCountAt := if body.isCount then some now
                 else (lookupStock ledger productId warehouseId).bind StockItem.lastCountAt } ∧
      ledger2 = writeStock ledger productId warehouseId item ∧
      audits = (if userExists then
          [{ action := if (lookupStock ledger productId warehouseId).isSome
                then .UPDATE else .CREATE
             before := (lookupStock ledger productId warehouseId).map
                (fun e => (e.quantity, e.reservedQty))
             after := (nq, nr) }]
        else []) := by
  simp only [updateStock] at h
  split at h
  · simp at h
  split at h
  · simp at h
  cases hcm : computeNewQty (lookupStock ledger productId warehouseId) body with
  | none =>
      rw [hcm] at h
      simp at h
  | some nqr =>
      obtain ⟨nq, nr⟩ := nqr
      rw [hcm] at h
      dsimp only at h
      by_cases hlt : nr > nq
      · rw [if_pos hlt] at h
        simp at h
      · rw [if_neg hlt] at h
        simp only [Prod.mk.injEq, StockOutcome.ok.injEq] at h
        obtain ⟨⟨hi, ha⟩, hl⟩ := h
        refine ⟨nq, nr, rfl, hlt, hi.symm, ?_, ha.symm⟩
        rw [← hl, hi]

/-- The quantity component `computeNewQty` returns: clamped at 0 and
determined by the mode of the body. -/
theorem computeNewQty_quantity {existing : Option StockItem} {body : StockBody}
    {nq nr : Int} (h : computeNewQty existing body = some (nq, nr)) :
    (∀ adj, body.adjustment = some adj →
        nq = max 0 (((existing.map StockItem.quantity).getD 0) + adj)) ∧
    (∀ q, body.adjustment = none → body.quantity = some q → nq = max 0 q) ∧
    0 ≤ nq := by
  unfold computeNewQty at h
  refine ⟨?_, ?_, ?_⟩
  · intro adj hadj
    rw [hadj] at h
    simp only [Option.some.injEq, Prod.mk.injEq] at h
    exact h.1.symm
  · intro q hadj hq
    rw [hadj, hq] at h
    simp only [Option.some.injEq, Prod.mk.injEq] at h
    exact h.1.symm
  · cases hadj : body.adjustment with
    | some adj =>
        rw [hadj] at h
        simp only [Option.some.injEq, Prod.mk.injEq] at h
        rw [← h.1]
        exact le_max_left 0 _
    | none =>
        rw [hadj] at h
        cases hq : body.quantity with
        | some q =>
            rw [hq] at h
            simp only [Option.some.injEq, Prod.mk.injEq] at h
            rw [← h.1]
            exact le_max_left 0 _
        | none =>
            rw [hq] at h
            cases h

/-- C7: every successful `updateStock` call yields a quantity that is
`max 0 (current + adjustment)` in relative mode and `max 0 given` in
absolute mode, the current quantity of a missing row counting as 0; in
particular the resulting quantity is never negative. -/
theorem C7_updateStock_quantity_clamped
    (products warehouses : List Nat) (userExists : Bool) (ledger : Ledger)
    (productId warehouseId : Nat) (body : StockBody) (now : Nat)
    (item : StockItem) (audits : List AuditEntry) (ledger2 : Ledger)
    (h : updateStock products warehouses userExists ledger productId warehouseId body now
          = (.ok item audits, ledger2)) :
    (∀ adj, body.adjustment = some adj →
        item.quantity
          = max 0 ((((lookupStock ledger productId warehouseId).map StockItem.quantity).getD 0)
              + adj)) ∧
    (∀ q, body.adjustment = none → body.quantity = some q → item.quantity = max 0 q) ∧
    0 ≤ item.quantity := by
  obtain ⟨nq, nr, heq, -, hi, -, -⟩ := updateStock_ok_inv h
  have hq : item.quantity = nq := by rw [hi]
  obtain ⟨h1, h2, h3⟩ := computeNewQty_quantity heq
  exact ⟨fun adj ha => by rw [hq]; exact h1 adj ha,
         fun q hn hs => by rw [hq]; exact h2 q hn hs,
         by rw [hq]; exact h3⟩

/-- Witness for C7 at a concrete input: an existing row with quantity 5
adjusted by −8 clamps to 0. -/
theorem C7_witness :
    (∀ adj, (StockBody.mk (some (-8)) none none false).adjustment = some adj →
        (StockItem.mk 0 0 0 none).quantity
          = max 0 ((((lookupStock [((1, 1), StockItem.mk 5 0 5 none)] 1 1).map
              StockItem.quantity).getD 0) + adj)) ∧
    (∀ q, (StockBody.mk (some (-8)) none none false).adjustment = none →
        (StockBody.mk (some (-8)) none none false).quantity = some q →
        (StockItem.mk 0 0 0 none).quantity = max 0 q) ∧
    0 ≤ (StockItem.mk 0 0 0 none).quantity :=
  C7_updateStock_quantity_clamped [1] [1] true [((1, 1), StockItem.mk 5 0 5 none)] 1 1
    (StockBody.mk (some (-8)) none none false) 7 (StockItem.mk 0 0 0 none)
    [AuditEntry.mk .UPDATE (some (5, 0)) (0, 0)] [((1, 1), StockItem.mk 0 0 0 none)] rfl

/-- A one-row ledger with quantity 5 and nothing reserved, used as the
concrete stock state of the scenario-D shaped inputs. -/
def c8Ledger : Ledger :=
  [((1, 1), { quantity := 5, reservedQty := 0, availableQty := 5, lastCountAt := none })]

/-- C8 fails on the code: on a row with quantity 5, a body carrying only
`reservedQty := 10` together with `adjustment := 0` succeeds (the supplied
reserved quantity is ignored in relative mode) although the supplied
reservedQty exceeds the resulting quantity, and a body carrying only
`reservedQty := 10` fails with the missing-field message
"quantity or adjustment is required", not the reserved-exceeds-quantity
message. -/
theorem C8_counterexample :
    (updateStock [1] [1] true c8Ledger 1 1
        { adjustment := some 0, quantity := none, reservedQty := some 10, isCount := false } 7).1
      = .ok { quantity := 5, reservedQty := 0, availableQty := 5, lastCountAt := none }
          [{ action := .UPDATE, before := some (5, 0), after := (5, 0) }] ∧
    updateStock [1] [1] true c8Ledger 1 1
        { adjustment := none, quantity := none, reservedQty := some 10, isCount := false } 7
      = (.err 400 "quantity or adjustment is required", c8Ledger) :=
  ⟨rfl, rfl⟩

/-- C8 amended: the supplied reservedQty is honored only in absolute mode,
where exceeding the resulting quantity `max 0 q` fails with the
reserved-exceeds ValidationError and leaves the ledger unchanged; in
relative (adjustment) mode the outcome is independent of the supplied
reservedQty; a body with neither quantity nor adjustment fails with the
missing-field ValidationError and leaves the ledger unchanged. -/
theorem C8_amended_reserved_only_absolute
    (products warehouses : List Nat) (u : Bool) (ledger : Ledger)
    (productId warehouseId : Nat) (now : Nat) :
    (∀ q r c, products.contains productId → warehouses.contains warehouseId →
        r > max 0 q →
        updateStock products warehouses u ledger productId warehouseId
            { adjustment := none, quantity := some q, reservedQty := some r, isCount := c } now
          = (.err 400 "Reserved quantity cannot exceed total quantity", ledger)) ∧
    (∀ adj oq r c,
        updateStock products warehouses u ledger productId warehouseId
            { adjustment := some adj, quantity := oq, reservedQty := some r, isCount := c } now
          = updateStock products warehouses u ledger productId warehouseId
              { adjustment := some adj, quantity := oq, reservedQty := none, isCount := c } now) ∧
    (∀ r c, products.contains productId → warehouses.contains warehouseId →
        updateStock products warehouses u ledger productId warehouseId
            { adjustment := none, quantity := none, reservedQty := r, isCount := c } now
          = (.err 400 "quantity or adjustment is required", ledger)) := by
  refine ⟨?_, ?_, ?_⟩
  · intro q r c hp hw hr
    simp only [updateStock]
    rw [if_neg (by simpa using hp), if_neg (by simpa using hw)]
    have : computeNewQty (lookupStock ledger productId warehouseId)
        { adjustment := none, quantity := some q, reservedQty := some r, isCount := c }
        = some (max 0 q, r) := rfl
    rw [this]
    dsimp only
    rw [if_pos hr]
  · intro adj oq r c
    rfl
  · intro r c hp hw
    simp only [updateStock]
    rw [if_neg (by simpa using hp), if_neg (by simpa using hw)]
    have : computeNewQty (lookupStock ledger productId warehouseId)
        { adjustment := none, quantity := none, reservedQty := r, isCount := c }
        = none := rfl
    rw [this]

/-- C10: an update requesting the order's current status bypasses the
transition-table check and succeeds in every state, terminal ones
included; a repeated SHIPPED or DELIVERED status overwrites the
corresponding timestamp with `now`. -/
theorem C10_same_status_bypass (existing : Order) (now : Nat) :
    ∃ o, updateOrder existing { status := some existing.status, hasItems := false } now = .ok o ∧
      o.status = existing.status ∧
      o.shippedAt = (if existing.status = .SHIPPED then some now else existing.shippedAt) ∧
      o.deliveredAt = (if existing.status = .DELIVERED then some now else existing.deliveredAt) := by
  refine ⟨{ status := existing.status
            shippedAt := if existing.status = .SHIPPED then some now else existing.shippedAt
            deliveredAt := if existing.status = .DELIVERED then some now else existing.deliveredAt },
          ?_, rfl, rfl, rfl⟩
  unfold updateOrder
  simp

/-- C4: a requested status different from the current one succeeds exactly
when the pair is in the `validTransitions` table, and otherwise is
rejected with the invalid-transition error naming both states. -/
theorem C4_transition_table
    (existing : Order) (now : Nat) (s : OrderStatus)
    (hne : s ≠ existing.status) :
    ((∃ o, updateOrder existing { status := some s, hasItems := false } now = .ok o) ↔
        s ∈ validTransitions existing.status) ∧
    (s ∉ validTransitions existing.status →
        updateOrder existing { status := some s, hasItems := false } now
          = .error (400, "Invalid status transition from "
              ++ orderStatusName existing.status ++ " to " ++ orderStatusName s)) := by
  have hcontains : (validTransitions existing.status).contains s = true
      ↔ s ∈ validTransitions existing.status := List.elem_iff
  unfold updateOrder
  dsimp only
  by_cases hmem : s ∈ validTransitions existing.status
  · rw [if_neg (fun hcond => hcond.2 (hcontains.mpr hmem)), if_neg (by simp)]
    exact ⟨⟨fun _ => hmem, fun _ => ⟨_, rfl⟩⟩, fun hn => absurd hmem hn⟩
  · rw [if_pos ⟨hne, fun hc => hmem (hcontains.mp hc)⟩]
    refine ⟨⟨?_, fun hm => absurd hm hmem⟩, fun _ => rfl⟩
    intro ⟨o, ho⟩
    cases ho
/-- Witness for C4: PENDING to DELIVERED is not in the table and fails with
the invalid-transition error; the iff also shows PENDING to CONFIRMED
succeeds via the table membership. -/
theorem C4_witness :
    ((∃ o, updateOrder (Order.mk .PENDING none none)
        { status := some OrderStatus.DELIVERED, hasItems := false } 7 = .ok o) ↔
      OrderStatus.DELIVERED ∈ validTransitions OrderStatus.PENDING) ∧
    (OrderStatus.DELIVERED ∉ validTransitions OrderStatus.PENDING →
      updateOrder (Order.mk .PENDING none none)
          { status := some OrderStatus.DELIVERED, hasItems := false } 7
        = .error (400, "Invalid status transition from "
            ++ orderStatusName OrderStatus.PENDING ++ " to "
            ++ orderStatusName OrderStatus.DELIVERED)) :=
  C4_transition_table (Order.mk .PENDING none none) 7 OrderStatus.DELIVERED (by decide)

/-- C6 fails on the code: a purchase order is created for an existing
supplier with an empty items array, and a sales order is created for an
existing customer with an empty items array; neither create fails. -/
theorem C6_counterexample :
    (∃ po, createPurchaseOrder [1]
        { supplierId := some 1, items := some [], taxAmount := none, shippingAmount := none }
      = .ok po) ∧
    (∃ o, createOrder [{ id := 1, taxExempt := false }] []
        { customerId := some 1, items := some [], discountAmount := none, shippingAmount := none }
      = .ok o) :=
  ⟨⟨_, rfl⟩, ⟨_, rfl⟩⟩

/-- C6 amended: creating a purchase order requires a supplierId referencing
an existing supplier and creating a sales order requires an existing
customerId, but an absent or empty item list is accepted: the order is
created with no items and subtotal 0. -/
theorem C6_amended_reference_checks_only
    (suppliers : List Nat) (pbody : CreatePOBody)
    (customers : List Customer) (products : List Product) (obody : CreateOrderBody) :
    (pbody.supplierId = none →
        createPurchaseOrder suppliers pbody = .error (400, "supplierId is required")) ∧
    (∀ sid, pbody.supplierId = some sid → ¬ suppliers.contains sid →
        createPurchaseOrder suppliers pbody = .error (404, "Supplier not found")) ∧
    (∀ sid, pbody.supplierId = some sid → suppliers.contains sid →
        (pbody.items = none ∨ pbody.items = some []) →
        ∃ po, createPurchaseOrder suppliers pbody = .ok po ∧ po.items = [] ∧ po.subtotal = 0) ∧
    (obody.customerId = none →
        createOrder customers products obody = .error (400, "customerId is required")) ∧
    (∀ cid, obody.customerId = some cid → customers.find? (fun c => c.id == cid) = none →
        createOrder customers products obody = .error (404, "Customer not found")) ∧
    (∀ cid cust, obody.customerId = some cid →
        customers.find? (fun c => c.id == cid) = some cust →
        (obody.items = none ∨ obody.items = some []) →
        ∃ o, createOrder customers products obody = .ok o ∧ o.items = [] ∧ o.subtotal = 0) := by
  refine ⟨?_, ?_, ?_, ?_, ?_, ?_⟩
  · intro hnone
    unfold createPurchaseOrder
    rw [hnone]
  · intro sid hsid hnc
    unfold createPurchaseOrder
    rw [hsid]
    dsimp only
    rw [if_pos (by simpa using hnc)]
  · intro sid hsid hc hitems
    unfold createPurchaseOrder
    rw [hsid]
    dsimp only
    rw [if_neg (by simpa using hc)]
    have hi : pbody.items.getD [] = [] := by
      rcases hitems with h | h <;> rw [h] <;> rfl
    rw [hi]
    exact ⟨_, rfl, rfl, rfl⟩
  · intro hnone
    unfold createOrder
    rw [hnone]
  · intro cid hcid hfind
    unfold createOrder
    rw [hcid]
    dsimp only
    rw [hfind]
  · intro cid cust hcid hfind hitems
    unfold createOrder
    rw [hcid]
    dsimp only
    rw [hfind]
    have hi : obody.items.getD [] = [] := by
      rcases hitems with h | h <;> rw [h] <;> rfl
    rw [hi]
    exact ⟨_, rfl, rfl, rfl⟩

/-- A received line whose clamped quantity is not positive leaves the
item table and the ledger unchanged. -/
theorem receiveLine_skip {snapshot : List POItem} {warehouseId : Nat}
    {st : List POItem × Ledger} {line : ReceiveLine} {item : POItem}
    (hfind : snapshot.find? (fun i => i.id == line.itemId) = some item)
    (hle : min line.receivedQty (item.quantity - item.receivedQty) ≤ 0) :
    receiveLine snapshot warehouseId st line = st := by
  unfold receiveLine
  rw [hfind]
  dsimp only
  rw [if_pos hle]

/-- A received line with a positive clamped quantity adds exactly that
quantity to the item's receivedQty and to the stock row. -/
theorem receiveLine_apply {snapshot : List POItem} {warehouseId : Nat}
    {st : List POItem × Ledger} {line : ReceiveLine} {item : POItem}
    (hfind : snapshot.find? (fun i => i.id == line.itemId) = some item)
    (hpos : 0 < min line.receivedQty (item.quantity - item.receivedQty)) :
    receiveLine snapshot warehouseId st line
      = (setReceivedQty st.1 item.id
           (item.receivedQty + min line.receivedQty (item.quantity - item.receivedQty)),
         stockReceive st.2 item.productId warehouseId
           (min line.receivedQty (item.quantity - item.receivedQty))) := by
  unfold receiveLine
  rw [hfind]
  dsimp only
  rw [if_neg (not_le.mpr hpos)]

/-- C2: each received line applies exactly
`min(requestedQty, quantity - receivedQty)` and is skipped when that clamp
is not positive; consequently receiving an already-fully-received item
again returns the ledger unchanged and leaves every item row as it was. -/
theorem C2_receive_clamp_and_second_receive_noop :
    (∀ (snapshot : List POItem) (warehouseId : Nat) (st : List POItem × Ledger)
        (line : ReceiveLine) (item : POItem),
        snapshot.find? (fun i => i.id == line.itemId) = some item →
        (min line.receivedQty (item.quantity - item.receivedQty) ≤ 0 →
            receiveLine snapshot warehouseId st line = st) ∧
        (0 < min line.receivedQty (item.quantity - item.receivedQty) →
            receiveLine snapshot warehouseId st line
              = (setReceivedQty st.1 item.id
                   (item.receivedQty + min line.receivedQty (item.quantity - item.receivedQty)),
                 stockReceive st.2 item.productId warehouseId
                   (min line.receivedQty (item.quantity - item.receivedQty))))) ∧
    (∀ (order : PurchaseOrder) (ledger : Ledger) (warehouseId : Nat) (item : POItem)
        (req : Int) (now : Nat),
        (order.status = .ORDERED ∨ order.status = .PARTIAL) →
        order.items.find? (fun i => i.id == item.id) = some item →
        item.quantity ≤ item.receivedQty →
        ∃ o2, receivePurchaseOrder order ledger warehouseId
            (some [{ itemId := item.id, receivedQty := req }]) now = .ok (o2, ledger) ∧
          o2.items = order.items) := by
  constructor
  · intro snapshot warehouseId st line item hfind
    exact ⟨fun hle => receiveLine_skip hfind hle, fun hpos => receiveLine_apply hfind hpos⟩
  · intro order ledger warehouseId item req now hstatus hfind hfull
    have hcontains : [POStatus.ORDERED, POStatus.PARTIAL].contains order.status = true := by
      rcases hstatus with h | h <;> rw [h] <;> rfl
    simp only [receivePurchaseOrder]
    rw [if_neg (not_not_intro hcontains)]
    dsimp only [Option.getD]
    rw [List.foldl_cons, List.foldl_nil,
        receiveLine_skip hfind (by exact min_le_of_right_le (by omega))]
    exact ⟨_, rfl, rfl⟩

/-- An ORDERED purchase order with a single line of quantity 10, none of
it received yet. -/
def c3Order : PurchaseOrder :=
  { status := .ORDERED
    items := [{ id := 1, productId := 2, quantity := 10, receivedQty := 0 }]
    receivedAt := none }

/-- C3 fails on the code: partially receiving 4 of the single line of 10
sets the status to PARTIAL although every item of the result has
`receivedQty > 0` (so "some but not all items have receivedQty > 0" is
false) and the order is not fully received, where the claim says the
status would stay unchanged. -/
theorem C3_counterexample :
    ∃ o2 l2, receivePurchaseOrder c3Order [] 3 (some [{ itemId := 1, receivedQty := 4 }]) 7
        = .ok (o2, l2) ∧
      o2.status = .PARTIAL ∧
      (∀ i ∈ o2.items, 0 < i.receivedQty) ∧
      ¬ (∀ i ∈ o2.items, i.quantity ≤ i.receivedQty) ∧
      c3Order.status ≠ o2.status := by
  refine ⟨_, _, rfl, rfl, by decide, by decide, by decide⟩

/-- The status/receivedAt recompute at the end of the receive transaction,
characterised against the updated item list. -/
theorem poRecompute_spec {prev : POStatus} {u : List POItem} {now : Nat}
    {st : POStatus} {ra : Option Nat}
    (hnotrec : prev ≠ POStatus.RECEIVED)
    (hst : st = if u.all (fun i => decide (i.receivedQty ≥ i.quantity)) then POStatus.RECEIVED
           else if u.any (fun i => decide (i.receivedQty > 0)) then POStatus.PARTIAL else prev)
    (hra : ra = if u.all (fun i => decide (i.receivedQty ≥ i.quantity)) then some now else none) :
    ((st = .RECEIVED) ↔ ∀ i ∈ u, i.quantity ≤ i.receivedQty) ∧
    ((¬ ∀ i ∈ u, i.quantity ≤ i.receivedQty) → (∃ i ∈ u, 0 < i.receivedQty) → st = .PARTIAL) ∧
    ((¬ ∀ i ∈ u, i.quantity ≤ i.receivedQty) → (¬ ∃ i ∈ u, 0 < i.receivedQty) → st = prev) ∧
    ((ra = some now) ↔ ∀ i ∈ u, i.quantity ≤ i.receivedQty) ∧
    ((¬ ∀ i ∈ u, i.quantity ≤ i.receivedQty) → ra = none) := by
  have hallIff : (u.all (fun i => decide (i.receivedQty ≥ i.quantity)) = true)
      ↔ ∀ i ∈ u, i.quantity ≤ i.receivedQty := by
    simp [List.all_eq_true, ge_iff_le]
  have hanyIff : (u.any (fun i => decide (i.receivedQty > 0)) = true)
      ↔ ∃ i ∈ u, 0 < i.receivedQty := by
    simp [List.any_eq_true]
  by_cases hall : ∀ i ∈ u, i.quantity ≤ i.receivedQty
  · rw [hst, hra, if_pos (hallIff.mpr hall), if_pos (hallIff.mpr hall)]
    exact ⟨⟨fun _ => hall, fun _ => rfl⟩, fun hn => absurd hall hn, fun hn => absurd hall hn,
           ⟨fun _ => hall, fun _ => rfl⟩, fun hn => absurd hall hn⟩
  · have hb : ¬ (u.all (fun i => decide (i.receivedQty ≥ i.quantity)) = true) :=
      fun hc => hall (hallIff.mp hc)
    rw [hst, hra, if_neg hb, if_neg hb]
    by_cases hsome : ∃ i ∈ u, 0 < i.receivedQty
    · rw [if_pos (hanyIff.mpr hsome)]
      exact ⟨⟨fun hc => POStatus.noConfusion hc, fun hc => absurd hc hall⟩, fun _ _ => rfl,
             fun _ hn => absurd hsome hn,
             ⟨fun hc => Option.noConfusion hc, fun hc => absurd hc hall⟩, fun _ => rfl⟩
    · rw [if_neg (fun hc => hsome (hanyIff.mp hc))]
      exact ⟨⟨fun hc => absurd hc hnotrec, fun hc => absurd hc hall⟩,
             fun _ hs => absurd hs hsome, fun _ _ => rfl,
             ⟨fun hc => Option.noConfusion hc, fun hc => absurd hc hall⟩, fun _ => rfl⟩

/-- C3 amended: after receiving (precondition ORDERED or PARTIAL), the
status is RECEIVED iff every item has `receivedQty ≥ quantity`; it is
PARTIAL when the order is not fully received but some item has
`receivedQty > 0` (even when every item does); otherwise it is unchanged;
`receivedAt` is `now` exactly when fully received and `none` otherwise. -/
theorem C3_amended_status_recompute
    (order : PurchaseOrder) (ledger : Ledger) (warehouseId : Nat)
    (bodyItems : Option (List ReceiveLine)) (now : Nat)
    (hstatus : order.status = .ORDERED ∨ order.status = .PARTIAL) :
    ∃ o2 l2, receivePurchaseOrder order ledger warehouseId bodyItems now = .ok (o2, l2) ∧
      ((o2.status = .RECEIVED) ↔ ∀ i ∈ o2.items, i.quantity ≤ i.receivedQty) ∧
      ((¬ ∀ i ∈ o2.items, i.quantity ≤ i.receivedQty) → (∃ i ∈ o2.items, 0 < i.receivedQty) →
          o2.status = .PARTIAL) ∧
      ((¬ ∀ i ∈ o2.items, i.quantity ≤ i.receivedQty) → (¬ ∃ i ∈ o2.items, 0 < i.receivedQty) →
          o2.status = order.status) ∧
      ((o2.receivedAt = some now) ↔ ∀ i ∈ o2.items, i.quantity ≤ i.receivedQty) ∧
      ((¬ ∀ i ∈ o2.items, i.quantity ≤ i.receivedQty) → o2.receivedAt = none) := by
  have hcontains : [POStatus.ORDERED, POStatus.PARTIAL].contains order.status = true := by
    rcases hstatus with h | h <;> rw [h] <;> rfl
  have hnotrec : order.status ≠ POStatus.RECEIVED := by
    rcases hstatus with h | h <;> rw [h] <;> intro hc <;> cases hc
  simp only [receivePurchaseOrder]
  rw [if_neg (not_not_intro hcontains)]
  exact ⟨_, _, rfl, poRecompute_spec hnotrec rfl rfl⟩

/-- Witness for C3 at the concrete partially-received order. -/
theorem C3_witness :
    ∃ o2 l2, receivePurchaseOrder c3Order [] 3 (some [{ itemId := 1, receivedQty := 4 }]) 7
        = .ok (o2, l2) ∧
      ((o2.status = .RECEIVED) ↔ ∀ i ∈ o2.items, i.quantity ≤ i.receivedQty) ∧
      ((¬ ∀ i ∈ o2.items, i.quantity ≤ i.receivedQty) → (∃ i ∈ o2.items, 0 < i.receivedQty) →
          o2.status = .PARTIAL) ∧
      ((¬ ∀ i ∈ o2.items, i.quantity ≤ i.receivedQty) → (¬ ∃ i ∈ o2.items, 0 < i.receivedQty) →
          o2.status = c3Order.status) ∧
      ((o2.receivedAt = some 7) ↔ ∀ i ∈ o2.items, i.quantity ≤ i.receivedQty) ∧
      ((¬ ∀ i ∈ o2.items, i.quantity ≤ i.receivedQty) → o2.receivedAt = none) :=
  C3_amended_status_recompute c3Order [] 3 (some [{ itemId := 1, receivedQty := 4 }]) 7
    (Or.inl rfl)

/-- C9 fails on the code: one successful bulk stock write produces a
success result entry but zero audit log entries. -/
theorem C9_counterexample :
    (bulkUpdateStock []
        [{ productId := some 1, warehouseId := some 1, quantity := some 2, reservedQty := some 0 }]
        7).2
      = ([{ productId := some 1, warehouseId := some 1, success := true }], []) :=
  rfl

/-- C9 amended: a successful `updateStock` write emits exactly one audit
entry holding the before/after (quantity, reservedQty) snapshot when a
user record exists, and none otherwise; the written row and resulting
ledger are independent of whether the audit entry is written; and
`bulkUpdateStock` emits no audit entries at all. -/
theorem C9_amended_audit_snapshot
    (products warehouses : List Nat) (ledger : Ledger)
    (productId warehouseId : Nat) (body : StockBody) (now : Nat) :
    (∀ item audits l2,
        updateStock products warehouses true ledger productId warehouseId body now
          = (.ok item audits, l2) →
        audits = [{ action := if (lookupStock ledger productId warehouseId).isSome
                      then .UPDATE else .CREATE
                    before := (lookupStock ledger productId warehouseId).map
                      (fun e => (e.quantity, e.reservedQty))
                    after := (item.quantity, item.reservedQty) }]) ∧
    (∀ item audits l2,
        updateStock products warehouses false ledger productId warehouseId body now
          = (.ok item audits, l2) →
        audits = []) ∧
    (∀ u1 u2 : Bool,
        ((updateStock products warehouses u1 ledger productId warehouseId body now).2
          = (updateStock products warehouses u2 ledger productId warehouseId body now).2) ∧
        (∀ item audits,
            (updateStock products warehouses u1 ledger productId warehouseId body now).1
              = .ok item audits →
            ∃ audits2,
              (updateStock products warehouses u2 ledger productId warehouseId body now).1
                = .ok item audits2)) ∧
    (∀ (l : Ledger) (items : List BulkItem) (n : Nat), (bulkUpdateStock l items n).2.2 = []) := by
  refine ⟨?_, ?_, ?_, fun l items n => rfl⟩
  · intro item audits l2 h
    obtain ⟨nq, nr, heq, hle, hi, hl, ha⟩ := updateStock_ok_inv h
    rw [ha, if_pos rfl]
    rw [hi]
  · intro item audits l2 h
    obtain ⟨nq, nr, heq, hle, hi, hl, ha⟩ := updateStock_ok_inv h
    rw [ha]
    rfl
  · intro u1 u2
    simp only [updateStock]
    split
    · exact ⟨rfl, fun item audits h => StockOutcome.noConfusion h⟩
    split
    · exact ⟨rfl, fun item audits h => StockOutcome.noConfusion h⟩
    cases hcm : computeNewQty (lookupStock ledger productId warehouseId) body with
    | none =>
        exact ⟨rfl, fun item audits h => StockOutcome.noConfusion h⟩
    | some nqr =>
        obtain ⟨nq, nr⟩ := nqr
        dsimp only
        split
        · exact ⟨rfl, fun item audits h => StockOutcome.noConfusion h⟩
        · refine ⟨rfl, fun item audits h => ?_⟩
          cases h
          exact ⟨_, rfl⟩

/-- Every ledger row satisfies `availableQty = quantity - reservedQty`. -/
def availOk (ledger : Ledger) : Prop :=
  ∀ e ∈ ledger, e.2.availableQty = e.2.quantity - e.2.reservedQty

/-- Every ledger row satisfies the full stock invariant
`0 ≤ reservedQty ≤ quantity` and `availableQty = quantity - reservedQty`. -/
def stockInvariant (ledger : Ledger) : Prop :=
  ∀ e ∈ ledger, 0 ≤ e.2.reservedQty ∧ e.2.reservedQty ≤ e.2.quantity ∧
    e.2.availableQty = e.2.quantity - e.2.reservedQty

/-- An upsert preserves any per-row predicate that the written row
satisfies. -/
theorem writeStock_forall {P : StockItem → Prop} {ledger : Ledger} {pid wid : Nat}
    {item : StockItem} (hl : ∀ e ∈ ledger, P e.2) (hi : P item) :
    ∀ e ∈ writeStock ledger pid wid item, P e.2 := by
  intro e he
  unfold writeStock at he
  split at he
  · rw [List.mem_map] at he
    obtain ⟨a, ha, hae⟩ := he
    by_cases hk : a.1 == (pid, wid)
    · rw [if_pos hk] at hae
      rw [← hae]
      exact hi
    · rw [if_neg hk] at hae
      rw [← hae]
      exact hl a ha
  · rw [List.mem_cons] at he
    rcases he with he | he
    · rw [he]
      exact hi
    · exact hl e he

/-- An upsert of a row satisfying the availability equation preserves
`availOk`. -/
theorem writeStock_availOk {ledger : Ledger} {pid wid : Nat} {item : StockItem}
    (h : availOk ledger) (hi : item.availableQty = item.quantity - item.reservedQty) :
    availOk (writeStock ledger pid wid item) :=
  @writeStock_forall (fun s => s.availableQty = s.quantity - s.reservedQty)
    ledger pid wid item h hi

/-- An upsert of a row satisfying the full invariant preserves
`stockInvariant`. -/
theorem writeStock_invariant {ledger : Ledger} {pid wid : Nat} {item : StockItem}
    (h : stockInvariant ledger)
    (hi : 0 ≤ item.reservedQty ∧ item.reservedQty ≤ item.quantity ∧
      item.availableQty = item.quantity - item.reservedQty) :
    stockInvariant (writeStock ledger pid wid item) :=
  @writeStock_forall
    (fun s => 0 ≤ s.reservedQty ∧ s.reservedQty ≤ s.quantity ∧
      s.availableQty = s.quantity - s.reservedQty)
    ledger pid wid item h hi

/-- A successful lookup returns the payload of a ledger entry. -/
theorem lookupStock_mem {ledger : Ledger} {pid wid : Nat} {e : StockItem}
    (h : lookupStock ledger pid wid = some e) :
    ∃ entry ∈ ledger, entry.2 = e := by
  unfold lookupStock at h
  cases hf : ledger.find? (fun x => x.1 == (pid, wid)) with
  | none => rw [hf] at h; cases h
  | some entry =>
      rw [hf] at h
      refine ⟨entry, List.mem_of_find?_eq_some hf, ?_⟩
      cases h
      rfl

/-- The receive upsert (increment quantity and availableQty by a positive
amount, or create a fresh row) preserves the full stock invariant. -/
theorem stockReceive_invariant {ledger : Ledger} {pid wid : Nat} {qty : Int}
    (h : stockInvariant ledger) (hq : 0 < qty) :
    stockInvariant (stockReceive ledger pid wid qty) := by
  unfold stockReceive
  cases hl : lookupStock ledger pid wid with
  | some e =>
      obtain ⟨entry, hmem, hev⟩ := lookupStock_mem hl
      obtain ⟨h1, h2, h3⟩ := h entry hmem
      rw [hev] at h1 h2 h3
      exact writeStock_invariant h ⟨h1, by dsimp only; omega, by dsimp only; omega⟩
  | none =>
      exact writeStock_invariant h ⟨le_refl 0, by dsimp only; omega, by dsimp only; omega⟩

/-- One receive-loop iteration preserves the full stock invariant of the
ledger component of the state. -/
theorem receiveLine_invariant {snapshot : List POItem} {warehouseId : Nat}
    {st : List POItem × Ledger} {line : ReceiveLine}
    (h : stockInvariant st.2) :
    stockInvariant (receiveLine snapshot warehouseId st line).2 := by
  unfold receiveLine
  cases hf : snapshot.find? (fun i => i.id == line.itemId) with
  | none => exact h
  | some item =>
      dsimp only
      split
      · exact h
      · rename_i hqty
        exact stockReceive_invariant h (by omega)

/-- The whole receive loop preserves the full stock invariant. -/
theorem foldl_receiveLine_invariant {snapshot : List POItem} {warehouseId : Nat}
    (lines : List ReceiveLine) (st : List POItem × Ledger)
    (h : stockInvariant st.2) :
    stockInvariant ((lines.foldl (receiveLine snapshot warehouseId) st)).2 := by
  induction lines generalizing st with
  | nil => exact h
  | cons l rest ih =>
      rw [List.foldl_cons]
      exact ih _ (receiveLine_invariant h)

/-- One bulk-update iteration preserves the availability equation on all
rows (it maintains nothing stronger). -/
theorem bulkStep_availOk {now : Nat} {st : Ledger × List BulkResult} {item : BulkItem}
    (h : availOk st.1) : availOk (bulkStep now st item).1 := by
  unfold bulkStep
  cases hp : item.productId with
  | none =>
      cases hw : item.warehouseId with
      | none => exact h
      | some wid => exact h
  | some pid =>
      cases hw : item.warehouseId with
      | none => exact h
      | some wid =>
          dsimp only
          exact writeStock_availOk h rfl

/-- The bulk-update loop preserves the availability equation on all rows. -/
theorem foldl_bulkStep_availOk {now : Nat} (items : List BulkItem)
    (st : Ledger × List BulkResult) (h : availOk st.1) :
    availOk ((items.foldl (bulkStep now) st)).1 := by
  induction items generalizing st with
  | nil => exact h
  | cons it rest ih =>
      rw [List.foldl_cons]
      exact ih _ (bulkStep_availOk h)

/-- C1 fails on the code: a bulk stock update accepts
`quantity = 1, reservedQty = 5` and writes a row with
`reservedQty > quantity` (availableQty −4), and `updateStock` accepts a
negative supplied `reservedQty = -5`, so `0 ≤ reservedQty ≤ quantity` does
not hold after every stock-mutating operation. -/
theorem C1_counterexample :
    ((bulkUpdateStock []
        [{ productId := some 1, warehouseId := some 1, quantity := some 1, reservedQty := some 5 }]
        7).1
      = [((1, 1), { quantity := 1, reservedQty := 5, availableQty := -4, lastCountAt := some 7 })] ∧
     (bulkUpdateStock []
        [{ productId := some 1, warehouseId := some 1, quantity := some 1, reservedQty := some 5 }]
        7).2.1
      = [{ productId := some 1, warehouseId := some 1, success := true }]) ∧
    (updateStock [1] [1] true [] 1 1
        { adjustment := none, quantity := some 10, reservedQty := some (-5), isCount := false } 7).1
      = .ok { quantity := 10, reservedQty := -5, availableQty := 15, lastCountAt := none }
          [{ action := .CREATE, before := none, after := (10, -5) }] :=
  ⟨⟨rfl, rfl⟩, rfl⟩

/-- C1 amended: `availableQty = quantity - reservedQty` holds for the row
written by every successful `updateStock` call and is preserved across
whole ledgers by `bulkUpdateStock`; `updateStock` additionally guarantees
`0 ≤ quantity` and `reservedQty ≤ quantity` for the written row (but not
`0 ≤ reservedQty`); and `receivePurchaseOrder` preserves the full
invariant `0 ≤ reservedQty ≤ quantity ∧ availableQty = quantity -
reservedQty` whenever it held before.  `bulkUpdateStock` enforces no
bounds at all on the written quantities. -/
theorem C1_amended_stock_invariants :
    (∀ (products warehouses : List Nat) (u : Bool) (ledger : Ledger)
        (productId warehouseId : Nat) (body : StockBody) (now : Nat)
        (item : StockItem) (audits : List AuditEntry) (l2 : Ledger),
        updateStock products warehouses u ledger productId warehouseId body now
          = (.ok item audits, l2) →
        item.availableQty = item.quantity - item.reservedQty ∧ 0 ≤ item.quantity ∧
        item.reservedQty ≤ item.quantity ∧ (availOk ledger → availOk l2)) ∧
    (∀ (ledger : Ledger) (items : List BulkItem) (now : Nat),
        availOk ledger → availOk (bulkUpdateStock ledger items now).1) ∧
    (∀ (order : PurchaseOrder) (ledger : Ledger) (warehouseId : Nat)
        (bodyItems : Option (List ReceiveLine)) (now : Nat)
        (o2 : PurchaseOrder) (l2 : Ledger),
        stockInvariant ledger →
        receivePurchaseOrder order ledger warehouseId bodyItems now = .ok (o2, l2) →
        stockInvariant l2) := by
  refine ⟨?_, ?_, ?_⟩
  · intro products warehouses u ledger productId warehouseId body now item audits l2 h
    obtain ⟨nq, nr, heq, hle, hi, hl, ha⟩ := updateStock_ok_inv h
    obtain ⟨-, -, hq⟩ := computeNewQty_quantity heq
    refine ⟨by rw [hi], by rw [hi]; exact hq, by rw [hi]; dsimp only; omega, ?_⟩
    intro hav
    rw [hl]
    exact writeStock_availOk hav (by rw [hi])
  · intro ledger items now h
    exact foldl_bulkStep_availOk items (ledger, []) h
  · intro order ledger warehouseId bodyItems now o2 l2 hinv h
    unfold receivePurchaseOrder at h
    split at h
    · cases h
    · cases h
      exact foldl_receiveLine_invariant _ _ hinv

/-- The line total of a created order item:
`quantity × unitPrice − discount`. -/
def lineTotalOf (d : OrderItemData) : ℚ := d.quantity * d.unitPrice - d.discount

/-- The per-line pricing relation between an order item input and the
created item row: product resolved from the catalog, quantity through JS
truthiness, unit price defaulted to the product's, discount defaulted to
0, tax at 8.25% iff the product is taxable and the customer is not
exempt, and `totalPrice = lineTotal + taxAmount`. -/
def itemPriced (products : List Product) (customer : Customer)
    (input : OrderItemInput) (d : OrderItemData) : Prop :=
  ∃ p, input.productId = some d.productId ∧
    products.find? (fun x => x.id == d.productId) = some p ∧
    truthyInt input.quantity = some d.quantity ∧
    d.unitPrice = input.unitPrice.getD p.unitPrice ∧
    d.discount = input.discount.getD 0 ∧
    d.taxAmount = lineTotalOf d
      * (if p.isTaxable ∧ ¬ customer.taxExempt then salesTaxRate else 0) ∧
    d.totalPrice = lineTotalOf d + d.taxAmount

/-- The item loop returns the sum of line totals, the sum of line taxes,
and a list of item rows related line-by-line to the inputs by
`itemPriced`. -/
theorem processOrderItems_spec {products : List Product} {customer : Customer}
    {inputs : List OrderItemInput} {s t : ℚ} {ds : List OrderItemData}
    (h : processOrderItems products customer inputs = .ok (s, t, ds)) :
    s = (ds.map lineTotalOf).sum ∧ t = (ds.map OrderItemData.taxAmount).sum ∧
    List.Forall₂ (itemPriced products customer) inputs ds := by
  induction inputs generalizing s t ds with
  | nil =>
      unfold processOrderItems at h
      cases h
      simp
  | cons item rest ih =>
      unfold processOrderItems at h
      cases hpid : item.productId with
      | none =>
          rw [hpid] at h
          cases h
      | some pid =>
          rw [hpid] at h
          cases htq : truthyInt item.quantity with
          | none =>
              rw [htq] at h
              cases h
          | some q =>
              rw [htq] at h
              dsimp only at h
              cases hf : products.find? (fun p => p.id == pid) with
              | none =>
                  rw [hf] at h
                  cases h
              | some product =>
                  rw [hf] at h
                  dsimp only at h
                  cases hrec : processOrderItems products customer rest with
                  | error e =>
                      rw [hrec] at h
                      cases h
                  | ok stds =>
                      obtain ⟨s2, t2, ds2⟩ := stds
                      rw [hrec] at h
                      dsimp only at h
                      cases h
                      obtain ⟨h1, h2, h3⟩ := ih hrec
                      refine ⟨?_, ?_, ?_⟩
                      · rw [List.map_cons, List.sum_cons, ← h1]
                        rfl
                      · rw [List.map_cons, List.sum_cons, ← h2]
                      · refine List.Forall₂.cons ⟨product, hpid, hf, htq,
                          rfl, rfl, rfl, rfl⟩ h3

/-- C5: a created sales order has `subtotal = Σ lineTotal`,
`taxAmount = Σ line taxAmount`, `totalAmount = subtotal − discountAmount
+ taxAmount + shippingAmount`, and every line priced by the per-line
rules with the unit price defaulting to the product's. -/
theorem C5_order_pricing
    (customers : List Customer) (products : List Product) (body : CreateOrderBody)
    (cid : Nat) (customer : Customer) (order : CreatedOrder)
    (hcid : body.customerId = some cid)
    (hcust : customers.find? (fun c => c.id == cid) = some customer)
    (hok : createOrder customers products body = .ok order) :
    order.subtotal = (order.items.map lineTotalOf).sum ∧
    order.taxAmount = (order.items.map OrderItemData.taxAmount).sum ∧
    order.discountAmount = body.discountAmount.getD 0 ∧
    order.shippingAmount = body.shippingAmount.getD 0 ∧
    order.totalAmount
      = order.subtotal - order.discountAmount + order.taxAmount + order.shippingAmount ∧
    List.Forall₂ (itemPriced products customer) (body.items.getD []) order.items := by
  unfold createOrder at hok
  rw [hcid] at hok
  dsimp only at hok
  rw [hcust] at hok
  dsimp only at hok
  cases hpi : processOrderItems products customer (body.items.getD []) with
  | error e =>
      rw [hpi] at hok
      cases hok
  | ok stds =>
      obtain ⟨s, t, ds⟩ := stds
      rw [hpi] at hok
      dsimp only at hok
      cases hok
      obtain ⟨h1, h2, h3⟩ := processOrderItems_spec hpi
      exact ⟨h1, h2, rfl, rfl, rfl, h3⟩

/-- Scenario B request: customer 1, one line of product 2 with quantity 2
and the unit price left to default. -/
def scenarioBBody : CreateOrderBody :=
  { customerId := some 1
    items := some [{ productId := some 2, quantity := some 2, unitPrice := none, discount := none }]
    discountAmount := none
    shippingAmount := none }

/-- Scenario B expected order: subtotal 200, tax 16.50, total 216.50. -/
def scenarioBOrder : CreatedOrder :=
  { customerId := 1
    subtotal := 200
    taxAmount := 33 / 2
    discountAmount := 0
    shippingAmount := 0
    totalAmount := 433 / 2
    items := [{ productId := 2, quantity := 2, unitPrice := 100, discount := 0,
                taxAmount := 33 / 2, totalPrice := 433 / 2 }] }

/-- Witness for C5 at Scenario B: taxable product at unit price 100,
quantity 2, non-exempt customer. -/
theorem C5_witness :
    scenarioBOrder.subtotal = (scenarioBOrder.items.map lineTotalOf).sum ∧
    scenarioBOrder.taxAmount = (scenarioBOrder.items.map OrderItemData.taxAmount).sum ∧
    scenarioBOrder.discountAmount = scenarioBBody.discountAmount.getD 0 ∧
    scenarioBOrder.shippingAmount = scenarioBBody.shippingAmount.getD 0 ∧
    scenarioBOrder.totalAmount
      = scenarioBOrder.subtotal - scenarioBOrder.discountAmount + scenarioBOrder.taxAmount
          + scenarioBOrder.shippingAmount ∧
    List.Forall₂
      (itemPriced [{ id := 2, unitPrice := 100, isTaxable := true }] { id := 1, taxExempt := false })
      (scenarioBBody.items.getD []) scenarioBOrder.items :=
  C5_order_pricing [{ id := 1, taxExempt := false }] [{ id := 2, unitPrice := 100, isTaxable := true }]
    scenarioBBody 1 { id := 1, taxExempt := false } scenarioBOrder rfl rfl
    (by norm_num [createOrder, processOrderItems, truthyInt, salesTaxRate,
        scenarioBBody, scenarioBOrder])

end AmplifySql
